import Mathlib

/-!
Verification of the quadruped locomotion controller (hebi quad kit).

The development shallowly embeds the control state machines of
`dynamicWalk.cpp` and `quadruped_control.cpp`, the gravity-direction
fusion and foot-force allocation of `robot/quadruped.cpp`, and the
trajectory-planning helpers, and proves the specified properties about
them.  Clock durations and double-precision comparisons on times are
modelled over `ℚ`; vector arithmetic that involves square roots or
trigonometry is modelled over `ℝ`.
-/

namespace DynamicWalkSM

/-! ## State machine of dynamicWalk.cpp

The C enum `ctrl_state_type` is backed by an integer, so the state
variable is modelled as a `Nat`; the `switch` default case covers the
sentinel `CTRL_STATES_COUNT` and every other unmodeled value. -/

def QUAD_CTRL_STAND_UP1 : Nat := 0

def QUAD_CTRL_STAND_UP2 : Nat := 1

def QUAD_DYNAMIC_WALK : Nat := 2

def CTRL_STATES_COUNT : Nat := 3

/-- `double startup_seconds = 1.9;` (dynamicWalk.cpp line 27). -/
def startup_seconds : ℚ := 1.9

/-- The loop-carried control state of `main` in dynamicWalk.cpp:
current state, the time at which it was entered, and the
`first_time_enter` flag. -/
structure DWMachine where
  cur_ctrl_state : Nat
  state_enter_time : ℚ
  first_time_enter : Bool
deriving DecidableEq

/-- Which `Quadruped` operations one tick of the dynamicWalk.cpp loop
invokes. -/
structure DWActions where
  spreadAllLegs : Bool := false
  pushAllLegs : Bool := false
  planDynamicGait : Bool := false
  followDynamicGait : Bool := false
  freeze : Bool := false
deriving DecidableEq

/-- One iteration of the `switch (cur_ctrl_state)` body of
dynamicWalk.cpp (lines 120-178).  `now` is the value of
`steady_clock::now()` for this tick and `total_time` is
`quadruped->getTotalTime()`. -/
def dynamicWalkTick (total_time : ℚ) (m : DWMachine) (now : ℚ) :
    DWMachine × DWActions :=
  if m.cur_ctrl_state = QUAD_CTRL_STAND_UP1 then
    -- case QUAD_CTRL_STAND_UP1: spreadAllLegs, then transition test
    let state_run_time := now - m.state_enter_time
    if state_run_time ≥ startup_seconds then
      ({ m with cur_ctrl_state := QUAD_CTRL_STAND_UP2, state_enter_time := now },
        { spreadAllLegs := true })
    else
      (m, { spreadAllLegs := true })
  else if m.cur_ctrl_state = QUAD_CTRL_STAND_UP2 then
    -- case QUAD_CTRL_STAND_UP2: pushAllLegs, then transition test
    let state_run_time := now - m.state_enter_time
    if state_run_time ≥ startup_seconds then
      ({ cur_ctrl_state := QUAD_DYNAMIC_WALK, state_enter_time := now,
          first_time_enter := true },
        { pushAllLegs := true })
    else
      (m, { pushAllLegs := true })
  else if m.cur_ctrl_state = QUAD_DYNAMIC_WALK then
    let state_run_time := now - m.state_enter_time
    -- make sure the time is strictly within totalTime
    if state_run_time ≥ total_time then
      ({ m with state_enter_time := now, first_time_enter := true }, {})
    else if m.first_time_enter then
      ({ m with first_time_enter := false },
        { planDynamicGait := true, followDynamicGait := true })
    else
      (m, { followDynamicGait := true })
  else
    -- case CTRL_STATES_COUNT / default: freeze
    (m, { freeze := true })

end DynamicWalkSM

namespace QuadCtrlSM

/-! ## State machine of quadruped_control.cpp -/

def HEXA_CTRL_STAND_UP_PLAN : Nat := 0

def HEXA_CTRL_STAND_UP : Nat := 1

def QUAD_CTRL_NORMAL : Nat := 2

def CTRL_STATES_COUNT : Nat := 3

/-- `double startup_seconds = 4.5;` (quadruped_control.cpp line 26). -/
def startup_seconds : ℚ := 4.5

/-- Loop-carried state of the control thread of quadruped_control.cpp. -/
structure QCMachine where
  cur_ctrl_state : Nat
  state_enter_time : ℚ
deriving DecidableEq

/-- Which `Quadruped` operations one tick of the quadruped_control.cpp
loop invokes.  `freeze` records whether `quadruped->freeze()` is called;
no case of this variant's switch ever calls it. -/
structure QCActions where
  planStandUpTraj : Bool := false
  execStandUpTraj : Bool := false
  freeze : Bool := false
deriving DecidableEq

/-- One iteration of the `switch (cur_ctrl_state)` body of
quadruped_control.cpp (lines 110-152). -/
def quadCtrlTick (m : QCMachine) (now : ℚ) : QCMachine × QCActions :=
  if m.cur_ctrl_state = HEXA_CTRL_STAND_UP_PLAN then
    ({ cur_ctrl_state := HEXA_CTRL_STAND_UP, state_enter_time := now },
      { planStandUpTraj := true })
  else if m.cur_ctrl_state = HEXA_CTRL_STAND_UP then
    let state_run_time := now - m.state_enter_time
    if state_run_time ≥ startup_seconds then
      ({ m with cur_ctrl_state := QUAD_CTRL_NORMAL }, { execStandUpTraj := true })
    else
      (m, { execStandUpTraj := true })
  else if m.cur_ctrl_state = QUAD_CTRL_NORMAL then
    (m, {})
  else
    -- case CTRL_STATES_COUNT / default: empty body, just `break;`
    (m, {})

end QuadCtrlSM

section StateMachineTheorems

open DynamicWalkSM

/-- Claim C1: in the dynamic-walk variant with `startup_seconds = 1.9`, a tick
in `QUAD_CTRL_STAND_UP1` whose time-in-state is below 1.9 s leaves the machine
unchanged in that state; the first tick whose time-in-state is ≥ 1.9 s moves it
to `QUAD_CTRL_STAND_UP2` (resetting the entry time); a tick in
`QUAD_CTRL_STAND_UP2` with time-in-state ≥ 1.9 s moves it to
`QUAD_DYNAMIC_WALK` with `first_time_enter` set; and `planDynamicGait` is
invoked exactly on the first tick of `QUAD_DYNAMIC_WALK` within a gait cycle
(the flag is cleared there), never on a later tick of the same cycle. -/
theorem dynamicWalk_startup_sequence_single_plan :
    (∀ (T : ℚ) (m : DWMachine) (now : ℚ),
      m.cur_ctrl_state = QUAD_CTRL_STAND_UP1 →
      now - m.state_enter_time < startup_seconds →
      (dynamicWalkTick T m now).1 = m) ∧
    (∀ (T : ℚ) (m : DWMachine) (now : ℚ),
      m.cur_ctrl_state = QUAD_CTRL_STAND_UP1 →
      now - m.state_enter_time ≥ startup_seconds →
      (dynamicWalkTick T m now).1.cur_ctrl_state = QUAD_CTRL_STAND_UP2 ∧
      (dynamicWalkTick T m now).1.state_enter_time = now) ∧
    (∀ (T : ℚ) (m : DWMachine) (now : ℚ),
      m.cur_ctrl_state = QUAD_CTRL_STAND_UP2 →
      now - m.state_enter_time ≥ startup_seconds →
      (dynamicWalkTick T m now).1.cur_ctrl_state = QUAD_DYNAMIC_WALK ∧
      (dynamicWalkTick T m now).1.state_enter_time = now ∧
      (dynamicWalkTick T m now).1.first_time_enter = true) ∧
    (∀ (T : ℚ) (m : DWMachine) (now : ℚ),
      m.cur_ctrl_state = QUAD_DYNAMIC_WALK →
      m.first_time_enter = true →
      now - m.state_enter_time < T →
      (dynamicWalkTick T m now).2.planDynamicGait = true ∧
      (dynamicWalkTick T m now).1.first_time_enter = false) ∧
    (∀ (T : ℚ) (m : DWMachine) (now : ℚ),
      m.cur_ctrl_state = QUAD_DYNAMIC_WALK →
      m.first_time_enter = false →
      now - m.state_enter_time < T →
      (dynamicWalkTick T m now).2.planDynamicGait = false) := by
  refine ⟨?_, ?_, ?_, ?_, ?_⟩
  · intro T m now h1 h2
    simp [dynamicWalkTick, h1, not_le.mpr h2]
  · intro T m now h1 h2
    simp [dynamicWalkTick, h1, h2]
  · intro T m now h1 h2
    simp [dynamicWalkTick, h1, h2, QUAD_CTRL_STAND_UP1, QUAD_CTRL_STAND_UP2,
      QUAD_DYNAMIC_WALK]
  · intro T m now h1 h2 h3
    simp [dynamicWalkTick, h1, h2, not_le.mpr h3, QUAD_CTRL_STAND_UP1,
      QUAD_CTRL_STAND_UP2, QUAD_DYNAMIC_WALK]
  · intro T m now h1 h2 h3
    simp [dynamicWalkTick, h1, h2, not_le.mpr h3, QUAD_CTRL_STAND_UP1,
      QUAD_CTRL_STAND_UP2, QUAD_DYNAMIC_WALK]

/-- Witness for C1: the five clauses at concrete inputs
(`T = 3`, entry time 0, ticks at 1 and 2 seconds). -/
theorem dynamicWalk_startup_sequence_single_plan_witness :
    (dynamicWalkTick 3 ⟨0, 0, false⟩ 1).1 = ⟨0, 0, false⟩ ∧
    (dynamicWalkTick 3 ⟨0, 0, false⟩ 2).1.cur_ctrl_state = QUAD_CTRL_STAND_UP2 ∧
    (dynamicWalkTick 3 ⟨1, 0, false⟩ 2).1.cur_ctrl_state = QUAD_DYNAMIC_WALK ∧
    (dynamicWalkTick 3 ⟨2, 0, true⟩ 1).2.planDynamicGait = true ∧
    (dynamicWalkTick 3 ⟨2, 0, false⟩ 1).2.planDynamicGait = false := by
  obtain ⟨h1, h2, h3, h4, h5⟩ := dynamicWalk_startup_sequence_single_plan
  exact ⟨h1 3 ⟨0, 0, false⟩ 1 rfl (by norm_num [startup_seconds]),
    (h2 3 ⟨0, 0, false⟩ 2 rfl (by norm_num [startup_seconds])).1,
    (h3 3 ⟨1, 0, false⟩ 2 rfl (by norm_num [startup_seconds])).1,
    (h4 3 ⟨2, 0, true⟩ 1 rfl rfl (by norm_num)).1,
    h5 3 ⟨2, 0, false⟩ 1 rfl rfl (by norm_num)⟩

/-- Claim C10: in `QUAD_DYNAMIC_WALK`, a tick whose time-in-state has reached
the gait cycle's total time only resets the entry timestamp and the
`first_time_enter` flag and invokes no `Quadruped` operation at all (neither
`planDynamicGait` nor `followDynamicGait`); on the following tick (still within
the new cycle) both `planDynamicGait` and `followDynamicGait` run, so each
cycle boundary has a one-tick command gap. -/
theorem dynamicWalk_cycle_boundary_one_tick_gap :
    (∀ (T : ℚ) (m : DWMachine) (now : ℚ),
      m.cur_ctrl_state = QUAD_DYNAMIC_WALK →
      now - m.state_enter_time ≥ T →
      (dynamicWalkTick T m now).1 =
        { m with state_enter_time := now, first_time_enter := true } ∧
      (dynamicWalkTick T m now).2 = {}) ∧
    (∀ (T : ℚ) (m : DWMachine) (now now' : ℚ),
      m.cur_ctrl_state = QUAD_DYNAMIC_WALK →
      now - m.state_enter_time ≥ T →
      now' - now < T →
      (dynamicWalkTick T (dynamicWalkTick T m now).1 now').2.planDynamicGait = true ∧
      (dynamicWalkTick T (dynamicWalkTick T m now).1 now').2.followDynamicGait = true) := by
  have step : ∀ (T : ℚ) (m : DWMachine) (now : ℚ),
      m.cur_ctrl_state = QUAD_DYNAMIC_WALK →
      now - m.state_enter_time ≥ T →
      (dynamicWalkTick T m now).1 =
        { m with state_enter_time := now, first_time_enter := true } ∧
      (dynamicWalkTick T m now).2 = {} := by
    intro T m now h1 h2
    simp [dynamicWalkTick, h1, h2, QUAD_CTRL_STAND_UP1, QUAD_CTRL_STAND_UP2,
      QUAD_DYNAMIC_WALK]
  refine ⟨step, ?_⟩
  intro T m now now' h1 h2 h3
  have hm := (step T m now h1 h2).1
  rw [hm]
  simp [dynamicWalkTick, h1, not_le.mpr h3, QUAD_CTRL_STAND_UP1,
    QUAD_CTRL_STAND_UP2, QUAD_DYNAMIC_WALK]

/-- Witness for C10: boundary tick at `now = 3` with cycle time `T = 2`,
followed by a tick at `now' = 4`. -/
theorem dynamicWalk_cycle_boundary_one_tick_gap_witness :
    ((dynamicWalkTick 2 ⟨2, 0, false⟩ 3).1 = ⟨2, 3, true⟩ ∧
      (dynamicWalkTick 2 ⟨2, 0, false⟩ 3).2 = {}) ∧
    (dynamicWalkTick 2 (dynamicWalkTick 2 ⟨2, 0, false⟩ 3).1 4).2.planDynamicGait = true := by
  obtain ⟨g1, g2⟩ := dynamicWalk_cycle_boundary_one_tick_gap
  exact ⟨g1 2 ⟨2, 0, false⟩ 3 rfl (by norm_num),
    (g2 2 ⟨2, 0, false⟩ 3 4 rfl (by norm_num) (by norm_num)).1⟩

/-- Claim C4 fails as stated: in the quadruped_control.cpp variant the
`default`/sentinel case performs no action at all — in particular it does not
invoke the safety-freeze — as shown at the concrete sentinel state
`CTRL_STATES_COUNT` (= 3), entry time 0, tick at time 0. -/
theorem quadCtrl_sentinel_no_freeze_cex :
    (QuadCtrlSM.quadCtrlTick ⟨QuadCtrlSM.CTRL_STATES_COUNT, 0⟩ 0).2.freeze = false := by
  rfl

/-- Claim C4 (amended): a tick whose state variable holds the sentinel
`CTRL_STATES_COUNT` or any unmodeled value leaves the machine unchanged and
never crashes the loop, in both variants; the dynamic-walk variant invokes the
safety-freeze (`quadruped->freeze()`), while the quadruped_control variant's
default case performs no action at all. -/
theorem sentinel_default_case_behavior :
    (∀ (T : ℚ) (m : DWMachine) (now : ℚ),
      m.cur_ctrl_state ≠ QUAD_CTRL_STAND_UP1 →
      m.cur_ctrl_state ≠ QUAD_CTRL_STAND_UP2 →
      m.cur_ctrl_state ≠ QUAD_DYNAMIC_WALK →
      (dynamicWalkTick T m now).2.freeze = true ∧
      (dynamicWalkTick T m now).1 = m) ∧
    (∀ (m : QuadCtrlSM.QCMachine) (now : ℚ),
      m.cur_ctrl_state ≠ QuadCtrlSM.HEXA_CTRL_STAND_UP_PLAN →
      m.cur_ctrl_state ≠ QuadCtrlSM.HEXA_CTRL_STAND_UP →
      m.cur_ctrl_state ≠ QuadCtrlSM.QUAD_CTRL_NORMAL →
      (QuadCtrlSM.quadCtrlTick m now).2 = {} ∧
      (QuadCtrlSM.quadCtrlTick m now).1 = m) := by
  constructor
  · intro T m now h1 h2 h3
    simp [dynamicWalkTick, h1, h2, h3]
  · intro m now h1 h2 h3
    simp [QuadCtrlSM.quadCtrlTick, h1, h2, h3]

/-- Witness for C4's amended theorem: both variants at the sentinel state 3
(and the dynamic-walk variant also at the unmodeled value 7). -/
theorem sentinel_default_case_behavior_witness :
    (dynamicWalkTick 2 ⟨CTRL_STATES_COUNT, 0, false⟩ 1).2.freeze = true ∧
    (dynamicWalkTick 2 ⟨7, 0, false⟩ 1).2.freeze = true ∧
    (QuadCtrlSM.quadCtrlTick ⟨QuadCtrlSM.CTRL_STATES_COUNT, 0⟩ 1).2 = {} := by
  obtain ⟨hdw, hqc⟩ := sentinel_default_case_behavior
  exact ⟨(hdw 2 ⟨CTRL_STATES_COUNT, 0, false⟩ 1 (by decide) (by decide) (by decide)).1,
    (hdw 2 ⟨7, 0, false⟩ 1 (by decide) (by decide) (by decide)).1,
    (hqc ⟨QuadCtrlSM.CTRL_STATES_COUNT, 0⟩ 1 (by decide) (by decide) (by decide)).1⟩

end StateMachineTheorems

namespace QuadModel

/-! ## Vector model

`Eigen::Vector3d` is modelled as `Fin 3 → ℝ`.  A per-leg quantity whose
components may be NaN ("feedback not yet received") is modelled as an
`Option`: `none` stands for a vector with a NaN component. -/

/-- 3-vectors over ℝ (`Eigen::Vector3d`). -/
abbrev V3 := Fin 3 → ℝ

/-- 4×4 rigid-transform matrices over ℝ (`Eigen::Matrix4d`). -/
abbrev Mat4 := Matrix (Fin 4) (Fin 4) ℝ

/-- Dot product of two 3-vectors. -/
def dot3 (a b : V3) : ℝ := ∑ i, a i * b i

/-- Squared Euclidean norm (`squaredNorm()`). -/
def sqNorm3 (v : V3) : ℝ := ∑ i, v i * v i

/-- Euclidean norm (`norm()`). -/
noncomputable def norm3 (v : V3) : ℝ := Real.sqrt (sqNorm3 v)

/-- Eigen's guarded `normalize()`: divide by the norm only when the squared
norm is positive, otherwise leave the vector unchanged (so the zero vector
stays zero). -/
noncomputable def normalize3 (v : V3) : V3 :=
  if 0 < sqNorm3 v then fun i => v i / Real.sqrt (sqNorm3 v) else v

/-- The gravity-fusion step of the feedback handler installed in
`Quadruped::Quadruped` (quadruped.cpp lines 56-90).  `ests i` is leg `i`'s
rotated per-leg gravity estimate `my_grav` (`none` when a component is NaN,
in which case the handler skips the leg); `prev` is the value of
`gravity_direction_` before the callback.  The handler starts from the zero
accumulator, adds every NaN-free estimate, normalizes (with Eigen's zero
guard) and overwrites `gravity_direction_` with the result, regardless of
`prev`. -/
noncomputable def gravityFeedbackUpdate (_prev : V3) (ests : Fin 6 → Option V3) : V3 :=
  let avg_grav : V3 := ∑ i, ((ests i).getD 0)
  normalize3 avg_grav

theorem gravityFeedbackUpdate_allNaN (prev : V3) (ests : Fin 6 → Option V3)
    (h : ∀ i, ests i = none) :
    gravityFeedbackUpdate prev ests = 0 := by
  have hsum : (∑ i, ((ests i).getD 0)) = (0 : V3) := by
    simp [h]
  rw [gravityFeedbackUpdate]
  rw [hsum, normalize3]
  have : sqNorm3 (0 : V3) = 0 := by simp [sqNorm3]
  rw [this]
  simp

end QuadModel

section GravityTheorems

open QuadModel

/-- Claim C2 fails as stated: at the concrete ingestion in which all six legs'
rotated estimates contain NaN and the previous fused value is the constant-one
vector, `gravity_direction_` is overwritten with the zero vector, hence is not
left unchanged. -/
theorem gravity_allNaN_overwritten_with_zero_cex :
    gravityFeedbackUpdate (fun _ => 1) (fun _ => none) = 0 ∧
    gravityFeedbackUpdate (fun _ => 1) (fun _ => none) ≠ (fun _ => 1) := by
  have h0 : gravityFeedbackUpdate (fun _ => 1) (fun _ => none) = 0 :=
    gravityFeedbackUpdate_allNaN _ _ (fun _ => rfl)
  refine ⟨h0, ?_⟩
  rw [h0]
  intro h
  have h1 := congrFun h 0
  norm_num at h1

/-- Claim C2 (amended): for every feedback ingestion in which all six legs'
rotated per-leg gravity estimates contain a NaN component, the handler
overwrites `gravity_direction_` with the zero vector (the zero accumulator
passes through the guarded normalize unchanged); the previous value is not
retained unless it was already zero, and the result is never NaN. -/
theorem gravity_allNaN_sets_zero (prev : V3) (ests : Fin 6 → Option V3)
    (h : ∀ i, ests i = none) :
    gravityFeedbackUpdate prev ests = 0 :=
  gravityFeedbackUpdate_allNaN prev ests h

/-- Witness for C2's amended theorem at a concrete previous value and
all-`none` estimates. -/
theorem gravity_allNaN_sets_zero_witness :
    gravityFeedbackUpdate (fun _ => -1) (fun _ => none) = 0 :=
  gravity_allNaN_sets_zero (fun _ => -1) (fun _ => none) (fun _ => rfl)

/-- Claim C6: if at least one leg's rotated gravity estimate is NaN-free and
every NaN-free estimate equals the same nonzero true direction `v`, then the
fused gravity direction after ingestion is the unit vector `v / ‖v‖`,
regardless of how many other legs are NaN. -/
theorem gravity_fusion_valid_legs_unit (prev v : V3) (ests : Fin 6 → Option V3)
    (hv : v ≠ 0) (j : Fin 6) (hj : ests j = some v)
    (hall : ∀ i w, ests i = some w → w = v) :
    gravityFeedbackUpdate prev ests = fun i => v i / norm3 v := by
  classical
  set c : Fin 6 → ℝ := fun i => if (ests i).isSome then 1 else 0 with hc
  have hterm : ∀ i, ((ests i).getD 0) = c i • v := by
    intro i
    cases hei : ests i with
    | none => simp [hc, hei]
    | some w =>
      have hw : w = v := hall i w hei
      simp [hc, hei, hw]
  have hsum : (∑ i, ((ests i).getD 0)) = (∑ i, c i) • v := by
    rw [Finset.sum_congr rfl (fun i _ => hterm i)]
    rw [Finset.sum_smul]
  set K : ℝ := ∑ i, c i with hK
  have hcnonneg : ∀ i, 0 ≤ c i := by
    intro i
    by_cases h : (ests i).isSome <;> simp [hc, h]
  have hKone : 1 ≤ K := by
    have hcj : c j = 1 := by simp [hc, hj]
    calc 1 = c j := hcj.symm
    _ ≤ K := Finset.single_le_sum (fun i _ => hcnonneg i) (Finset.mem_univ j)
  have hKpos : 0 < K := lt_of_lt_of_le one_pos hKone
  -- squared norm of v is positive since v ≠ 0
  have hvk : ∃ k, v k ≠ 0 := by
    by_contra hno
    push_neg at hno
    exact hv (funext fun k => hno k)
  obtain ⟨k, hk⟩ := hvk
  have hsq_nonneg : ∀ i : Fin 3, (0 : ℝ) ≤ v i * v i := fun i => mul_self_nonneg _
  have hsqv : 0 < sqNorm3 v := by
    have hge : v k * v k ≤ sqNorm3 v :=
      Finset.single_le_sum (fun i _ => hsq_nonneg i) (Finset.mem_univ k)
    exact lt_of_lt_of_le (mul_self_pos.mpr hk) hge
  have hsqKv : sqNorm3 (K • v) = K ^ 2 * sqNorm3 v := by
    simp [sqNorm3, Finset.mul_sum]
    ring_nf
    refine Finset.sum_congr rfl (fun i _ => by ring)
  rw [gravityFeedbackUpdate, hsum, normalize3]
  have hpos : 0 < sqNorm3 (K • v) := by
    rw [hsqKv]
    exact mul_pos (pow_pos hKpos 2) hsqv
  rw [if_pos hpos]
  funext i
  have hsqrt : Real.sqrt (sqNorm3 (K • v)) = K * Real.sqrt (sqNorm3 v) := by
    rw [hsqKv, Real.sqrt_mul (pow_nonneg hKpos.le 2), Real.sqrt_sq hKpos.le]
  rw [hsqrt]
  have hKv : (K • v) i = K * v i := rfl
  rw [hKv, norm3]
  rw [mul_div_mul_left _ _ (ne_of_gt hKpos)]

/-- Witness for C6: one valid leg reporting `(3, 0, 0)`, all others NaN. -/
theorem gravity_fusion_valid_legs_unit_witness :
    gravityFeedbackUpdate 0
      (fun i => if i = 0 then some (fun k => if k = 0 then (3 : ℝ) else 0) else none) =
      fun i => (fun k => if k = 0 then (3 : ℝ) else 0) i /
        norm3 (fun k => if k = 0 then (3 : ℝ) else 0) := by
  refine gravity_fusion_valid_legs_unit 0 _ _ ?_ 0 ?_ ?_
  · intro h
    have h1 := congrFun h 0
    norm_num at h1
  · simp
  · intro i w hw
    by_cases hi : i = 0
    · subst hi
      simp at hw
      exact hw.symm
    · simp [hi] at hw

end GravityTheorems

namespace QuadModel

/-! ## Stance foot-force allocation (`Quadruped::computeFootForces`,
quadruped.cpp lines 248-291)

The per-leg base frames are built by `QuadLeg` (not part of these sources),
so they are taken as a parameter; every stance target is the hard-coded
offset `(0.45, 0, -0.28, 0)` mapped through a leg's base frame, exactly as
in the source. -/

/-- The hard-coded home-stance offset `tmp4(0.45, 0, -0.28, 0)`. -/
noncomputable def tmp4_home : Fin 4 → ℝ := ![0.45, 0, -0.28, 0]

/-- `home_stance_xyz = (base_frame * tmp4).topLeftCorner<3,1>()`. -/
noncomputable def homeStanceXYZ (baseFrame : Fin 6 → Mat4) (i : Fin 6) : V3 :=
  fun r => (baseFrame i).mulVec tmp4_home r.castSucc

/-- One leg's geometric leverage:
`factors(i) = (grav * dot_prod - stance).norm()` where
`grav = -gravity_direction_` and `dot_prod = grav.dot(stance)`. -/
noncomputable def footLeverage (gravity_direction stance : V3) : ℝ :=
  norm3 (dot3 (-gravity_direction) stance • (-gravity_direction) - stance)

/-- The per-leg scalar factors computed by `computeFootForces`: the leverage
factors are inverted (as `fact_sum / factors(i)`), re-summed, normalized to
sum to one, then scaled by `1 + 0.33 * sin(π * blend_factor)` with every
blend factor equal to `1`. -/
noncomputable def footForceFactors (gravity_direction : V3)
    (baseFrame : Fin 6 → Mat4) : Fin 6 → ℝ :=
  let factors0 : Fin 6 → ℝ :=
    fun i => footLeverage gravity_direction (homeStanceXYZ baseFrame i)
  let fact_sum : ℝ := ∑ i, factors0 i
  let factors1 : Fin 6 → ℝ := fun i => fact_sum / factors0 i
  let blend_factors : Fin 6 → ℝ := fun _ => 1
  let fact_sum2 : ℝ := ∑ i, factors1 i
  let factors2 : Fin 6 → ℝ := fun i => factors1 i / fact_sum2
  fun i => factors2 i * (1 + 0.33 * Real.sin (Real.pi * blend_factors i))

/-- `foot_forces.block<3,1>(0,i) = factors(i) * weight_ * grav` with
`grav = -gravity_direction_`. -/
noncomputable def computeFootForces (gravity_direction : V3)
    (baseFrame : Fin 6 → Mat4) (weight : ℝ) : Fin 6 → V3 :=
  fun i => footForceFactors gravity_direction baseFrame i •
    (weight • (-gravity_direction))

end QuadModel

section FootForceTheorems

open QuadModel

/-- Claim C3: for every unit gravity direction and base frames whose six home
stance targets have nonzero leverage, `computeFootForces` produces per-leg
forces of the form `factor_i * weight * (-g)`; with all blend factors equal to
1 the scaling `1 + 0.33 * sin(π)` is the identity and the factors sum to 1, so
the total force component along the gravity axis equals the total weight. -/
theorem computeFootForces_sum_to_weight (g : V3) (baseFrame : Fin 6 → Mat4)
    (weight : ℝ) (hunit : sqNorm3 g = 1)
    (hlev : ∀ i, footLeverage g (homeStanceXYZ baseFrame i) ≠ 0) :
    (∀ i, computeFootForces g baseFrame weight i =
      footForceFactors g baseFrame i • (weight • (-g))) ∧
    (∑ i, footForceFactors g baseFrame i) = 1 ∧
    (∑ i, dot3 (computeFootForces g baseFrame weight i) (-g)) = weight := by
  have hlevnn : ∀ i, 0 ≤ footLeverage g (homeStanceXYZ baseFrame i) :=
    fun i => Real.sqrt_nonneg _
  have hlevpos : ∀ i, 0 < footLeverage g (homeStanceXYZ baseFrame i) :=
    fun i => lt_of_le_of_ne (hlevnn i) (Ne.symm (hlev i))
  have hsum1pos : 0 < ∑ i, footLeverage g (homeStanceXYZ baseFrame i) :=
    Finset.sum_pos (fun i _ => hlevpos i) Finset.univ_nonempty
  set L : Fin 6 → ℝ := fun i => footLeverage g (homeStanceXYZ baseFrame i) with hL
  set S : ℝ := ∑ i, L i with hS
  have hinvpos : ∀ i, 0 < S / L i := fun i => div_pos hsum1pos (hlevpos i)
  have hS2pos : 0 < ∑ i, S / L i := Finset.sum_pos (fun i _ => hinvpos i) Finset.univ_nonempty
  have hsin : Real.sin Real.pi = 0 := Real.sin_pi
  have hfactors : (∑ i, footForceFactors g baseFrame i) = 1 := by
    unfold footForceFactors
    simp only [mul_one, hsin, mul_zero, add_zero]
    rw [← Finset.sum_div]
    exact div_self (ne_of_gt hS2pos)
  refine ⟨fun i => rfl, hfactors, ?_⟩
  have hdot : dot3 (-g) (-g) = 1 := by
    have h : dot3 (-g) (-g) = sqNorm3 g := by
      simp only [dot3, sqNorm3, Pi.neg_apply, neg_mul_neg]
    rw [h, hunit]
  have hterm : ∀ i, dot3 (computeFootForces g baseFrame weight i) (-g) =
      footForceFactors g baseFrame i * weight := by
    intro i
    have : computeFootForces g baseFrame weight i =
        fun k => footForceFactors g baseFrame i * (weight * (-g) k) := rfl
    rw [this]
    have hexp : dot3 (fun k => footForceFactors g baseFrame i * (weight * (-g) k)) (-g) =
        footForceFactors g baseFrame i * weight * dot3 (-g) (-g) := by
      simp [dot3, Finset.mul_sum]
      exact Finset.sum_congr rfl (fun k _ => by ring)
    rw [hexp, hdot, mul_one]
  rw [Finset.sum_congr rfl (fun i _ => hterm i), ← Finset.sum_mul, hfactors, one_mul]

/-- Witness for C3: gravity straight down `(0, 0, -1)` and the identity base
frame on every leg, for which each home-stance leverage is nonzero. -/
theorem computeFootForces_sum_to_weight_witness :
    (∑ i, QuadModel.footForceFactors ![0, 0, -1] (fun _ => (1 : Mat4)) i) = 1 ∧
    (∑ i, dot3 (computeFootForces ![0, 0, -1] (fun _ => (1 : Mat4)) 5 i)
      (-![0, 0, -1])) = 5 := by
  have hunit : sqNorm3 ![0, 0, -1] = 1 := by
    simp [sqNorm3, Fin.sum_univ_three]
  have hstance : ∀ i : Fin 6,
      homeStanceXYZ (fun _ => (1 : Mat4)) i = ![(0.45 : ℝ), 0, -0.28] := by
    intro i
    funext r
    rw [homeStanceXYZ, Matrix.one_mulVec]
    fin_cases r <;> rfl
  have hlev : ∀ i : Fin 6,
      footLeverage ![0, 0, -1] (homeStanceXYZ (fun _ => (1 : Mat4)) i) ≠ 0 := by
    intro i
    rw [hstance i, footLeverage]
    have hvec : (dot3 (-![0, 0, -1]) ![(0.45 : ℝ), 0, -0.28] • (-![0, 0, -1]) -
        ![(0.45 : ℝ), 0, -0.28]) = ![(-0.45 : ℝ), 0, 0] := by
      have hd : dot3 (-![0, 0, -1]) ![(0.45 : ℝ), 0, -0.28] = -0.28 := by
        norm_num [dot3, Fin.sum_univ_three]
      rw [hd]
      funext k
      fin_cases k <;>
        simp [Matrix.cons_val_zero, Matrix.cons_val_one, Matrix.head_cons]
    rw [hvec, norm3]
    have hsq : sqNorm3 ![(-0.45 : ℝ), 0, 0] = 0.2025 := by
      simp [sqNorm3, Fin.sum_univ_three]
      norm_num
    rw [hsq]
    exact ne_of_gt (Real.sqrt_pos.mpr (by norm_num))
  have h := computeFootForces_sum_to_weight ![0, 0, -1] (fun _ => (1 : Mat4)) 5
    hunit hlev
  exact ⟨h.2.1, h.2.2⟩

end FootForceTheorems

namespace QuadModel

/-! ## The stand-up torque ramp (`Quadruped::execStandUpTraj`,
quadruped.cpp lines 221-245) -/

/-- `double ramp_up_scale = std::min(1.0, (curr_time + 0.001 / 2.0));`
(quadruped.cpp line 236).  By C++ precedence the constant added to
`curr_time` is `0.001 / 2.0 = 0.0005`. -/
def ramp_up_scale (curr_time : ℚ) : ℚ := min 1 (curr_time + 0.001 / 2)

/-- The foot-force distribution actually applied for the compensating torque
in `execStandUpTraj`: the geometric distribution scaled by the ramp
(`foot_forces *= ramp_up_scale`). -/
noncomputable def execStandUpFootForce (gravity_direction : V3)
    (baseFrame : Fin 6 → Mat4) (weight : ℝ) (curr_time : ℚ) : Fin 6 → V3 :=
  fun i => (ramp_up_scale curr_time : ℝ) •
    computeFootForces gravity_direction baseFrame weight i

end QuadModel

section RampTheorems

open QuadModel

/-- Claim C5 fails as stated: at trajectory time `t = 0` the ramp factor is
`0.0005`, not `0` (the parenthesisation in the source adds `0.001 / 2.0` to
`curr_time` instead of halving their sum). -/
theorem ramp_up_scale_at_zero_cex :
    ramp_up_scale 0 = 1 / 2000 ∧ ramp_up_scale 0 ≠ 0 := by
  constructor
  · norm_num [ramp_up_scale]
  · norm_num [ramp_up_scale]

/-- Claim C5 (amended): the applied foot-force distribution in
`execStandUpTraj` is the geometric distribution scaled by
`ramp_up_scale t = min 1 (t + 0.0005)`, which equals `0.0005` (not `0`) at
`t = 0`, is monotone, reaches full scale `1` for every `t ≥ 0.9995` (not over
the trajectory's first instant), and never exceeds `1` for any `t`. -/
theorem ramp_up_scale_spec :
    ramp_up_scale 0 = 1 / 2000 ∧
    (∀ t : ℚ, ramp_up_scale t ≤ 1) ∧
    (∀ s t : ℚ, s ≤ t → ramp_up_scale s ≤ ramp_up_scale t) ∧
    (∀ t : ℚ, 1999 / 2000 ≤ t → ramp_up_scale t = 1) ∧
    (∀ (g : V3) (baseFrame : Fin 6 → Mat4) (weight : ℝ) (t : ℚ) (i : Fin 6),
      execStandUpFootForce g baseFrame weight t i =
        (ramp_up_scale t : ℝ) • computeFootForces g baseFrame weight i) := by
  refine ⟨by norm_num [ramp_up_scale], fun t => min_le_left _ _, ?_, ?_, fun g b w t i => rfl⟩
  · intro s t hst
    exact min_le_min le_rfl (by linarith)
  · intro t ht
    rw [ramp_up_scale]
    rw [min_eq_left (by norm_num; linarith)]

/-- Witness for C5's amended theorem: the ramp evaluated at `t = 0`, the cap
at `t = 2`, monotonicity between `0` and `2`, and saturation at `t = 1`. -/
theorem ramp_up_scale_spec_witness :
    ramp_up_scale 0 = 1 / 2000 ∧ ramp_up_scale 2 ≤ 1 ∧
    ramp_up_scale 0 ≤ ramp_up_scale 2 ∧ ramp_up_scale 1 = 1 := by
  obtain ⟨h1, h2, h3, h4, _⟩ := ramp_up_scale_spec
  exact ⟨h1, h2 2, h3 0 2 (by norm_num), h4 1 (by norm_num)⟩

end RampTheorems

namespace QuadModel

/-! ## Dynamic-gait leg groups (`Quadruped::runTest` and
`Quadruped::prepareTrajectories`, quadruped.cpp lines 444-554 and 557-702)

Leg kinematics (`computeIK`) and the built trajectories (`getState`) live
outside these sources, so they enter as opaque parameters; the embedding
keeps the leg-group selection and the command assignments of the source. -/

/-- `Quadruped::SwingMode`. -/
inductive SwingMode
  | swing_mode_virtualLeg1
  | swing_mode_virtualLeg2
deriving DecidableEq

/-- The swing virtual-leg pair selected in `runTest`/`prepareTrajectories`. -/
def swing_vleg : SwingMode → Fin 2 → Fin 6
  | .swing_mode_virtualLeg1 => ![0, 5]
  | .swing_mode_virtualLeg2 => ![1, 4]

/-- The stance virtual-leg pair selected in `runTest`/`prepareTrajectories`. -/
def stance_vleg : SwingMode → Fin 2 → Fin 6
  | .swing_mode_virtualLeg1 => ![1, 4]
  | .swing_mode_virtualLeg2 => ![0, 5]

/-- The hard-coded manipulate-leg offset `tmp4(0.35, 0, 0, 0)`. -/
noncomputable def tmp4_manip : Fin 4 → ℝ := ![0.35, 0, 0, 0]

/-- The hard-coded manipulate-leg shift `tmp3(0.07, 0, 0)`. -/
noncomputable def tmp3_manip : V3 := ![0.07, 0, 0]

/-- Target pose of a manipulate leg (legs 2 and 3) in `runTest`:
`(base_frame * tmp4).topLeftCorner<3,1>() + tmp3`. -/
noncomputable def manipStanceXYZ (baseFrame : Fin 6 → Mat4) (i : Fin 6) : V3 :=
  fun r => (baseFrame i).mulVec tmp4_manip r.castSucc + tmp3_manip r

/-- The per-leg position commands written by one call of
`Quadruped::runTest`: first legs 2 and 3 are commanded to the fixed
manipulate pose, then the two swing legs to their sampled swing
trajectories, then the two stance legs to their sampled stance
trajectories.  `swingSample i t` / `stanceSample i t` stand for
`swing_trajectories[i]->getState(t, …)` /
`stance_trajectories[i]->getState(t, …)`. -/
noncomputable def runTestPositionCmd {J : Type} (baseFrame : Fin 6 → Mat4)
    (ik : Fin 6 → V3 → J) (swingSample stanceSample : Fin 2 → ℝ → J)
    (mode : SwingMode) (curr_time : ℝ) (cmd0 : Fin 6 → J) : Fin 6 → J :=
  let cmd1 := Function.update cmd0 2 (ik 2 (manipStanceXYZ baseFrame 2))
  let cmd2 := Function.update cmd1 3 (ik 3 (manipStanceXYZ baseFrame 3))
  let cmd3 := Function.update cmd2 (swing_vleg mode 0) (swingSample 0 curr_time)
  let cmd4 := Function.update cmd3 (swing_vleg mode 1) (swingSample 1 curr_time)
  let cmd5 := Function.update cmd4 (stance_vleg mode 0) (stanceSample 0 curr_time)
  Function.update cmd5 (stance_vleg mode 1) (stanceSample 1 curr_time)

end QuadModel

section RunTestTheorems

open QuadModel

/-- Claim C7: in the dynamic-walk gait step, the swing and stance groups are
exactly the diagonal virtual-leg pairs `{0,5}` and `{1,4}`, swapped between
the two swing modes; and for every tick, both swing modes, and any previous
command frame, legs 2 and 3 are commanded to the fixed pose obtained by IK of
`base_frame * (0.35,0,0)` offset by `(0.07,0,0)` — an expression independent
of time and mode — while each swing (resp. stance) leg is commanded to its
sampled swing (resp. stance) trajectory. -/
theorem runTest_leg_groups_and_manip_fixed {J : Type} :
    (swing_vleg .swing_mode_virtualLeg1 = ![0, 5] ∧
      stance_vleg .swing_mode_virtualLeg1 = ![1, 4] ∧
      swing_vleg .swing_mode_virtualLeg2 = ![1, 4] ∧
      stance_vleg .swing_mode_virtualLeg2 = ![0, 5]) ∧
    (∀ (baseFrame : Fin 6 → Mat4) (ik : Fin 6 → V3 → J)
      (swingS stanceS : Fin 2 → ℝ → J) (mode : SwingMode) (t : ℝ)
      (cmd0 : Fin 6 → J),
      runTestPositionCmd baseFrame ik swingS stanceS mode t cmd0 2 =
        ik 2 (manipStanceXYZ baseFrame 2) ∧
      runTestPositionCmd baseFrame ik swingS stanceS mode t cmd0 3 =
        ik 3 (manipStanceXYZ baseFrame 3) ∧
      (∀ i : Fin 2, runTestPositionCmd baseFrame ik swingS stanceS mode t cmd0
        (swing_vleg mode i) = swingS i t) ∧
      (∀ i : Fin 2, runTestPositionCmd baseFrame ik swingS stanceS mode t cmd0
        (stance_vleg mode i) = stanceS i t)) := by
  refine ⟨⟨rfl, rfl, rfl, rfl⟩, ?_⟩
  intro baseFrame ik swingS stanceS mode t cmd0
  cases mode <;>
    exact ⟨by simp [runTestPositionCmd, swing_vleg, stance_vleg, Function.update],
      by simp [runTestPositionCmd, swing_vleg, stance_vleg, Function.update],
      fun i => by
        fin_cases i <;>
          simp [runTestPositionCmd, swing_vleg, stance_vleg, Function.update],
      fun i => by
        fin_cases i <;>
          simp [runTestPositionCmd, swing_vleg, stance_vleg, Function.update]⟩

end RunTestTheorems

namespace QuadModel

/-! ## Stand-up trajectory planning (`Quadruped::planStandUpTraj`,
quadruped.cpp lines 171-219) -/

/-- The waypoint set built for one leg: five waypoint times, positions, and
optional velocity/acceleration constraints (`none` models the NaN columns,
i.e. a solver-free boundary derivative). -/
structure StandUpWaypoints where
  times : Fin 5 → ℝ
  positions : Fin 5 → V3
  velocities : Fin 5 → Option V3
  accelerations : Fin 5 → Option V3

/-- `bool step_first = (i == 0 || i == 3 || i == 4);`. -/
def step_first (i : Fin 6) : Bool := i == 0 || i == 3 || i == 4

/-- `leg_mid` is `leg_end` with `0.3` subtracted from joint 1 and `0.15`
subtracted from joint 2. -/
noncomputable def standUpLegMid (leg_end : V3) : V3 :=
  Function.update (Function.update leg_end 1 (leg_end 1 - 0.3)) 2 (leg_end 2 - 0.15)

/-- The per-leg waypoint sets built by `Quadruped::planStandUpTraj`.
`legJointAngles i` is `getLegJointAngles(i)` (the live feedback) and `ik`
stands for `computeIK` of the missing `QuadLeg` kinematics. -/
noncomputable def planStandUpTraj (baseFrame : Fin 6 → Mat4)
    (ik : Fin 6 → V3 → V3) (legJointAngles : Fin 6 → V3)
    (duration_time : ℝ) : Fin 6 → StandUpWaypoints :=
  fun i =>
    let leg_start := legJointAngles i
    let leg_end := ik i (homeStanceXYZ baseFrame i)
    let leg_mid := standUpLegMid leg_end
    { times := ![0, 0 + duration_time * 0.25, 0 + duration_time * 0.5,
        0 + duration_time * 0.75, 0 + duration_time],
      positions := ![leg_start,
        if step_first i then leg_mid else leg_start,
        if step_first i then leg_end else leg_start,
        if step_first i then leg_end else leg_mid,
        leg_end],
      velocities := ![some 0, none, some 0, none, some 0],
      accelerations := ![some 0, none, some 0, none, some 0] }

end QuadModel

section PlanStandUpTheorems

open QuadModel

/-- Claim C8: `planStandUpTraj(d)` gives every leg a 5-waypoint trajectory
with times exactly `0, 0.25d, 0.5d, 0.75d, d`, first position the leg's
current joint angles and last position the IK solution of the home stance
point; the stagger legs (exactly the indices 0, 3, 4) pass through the raised
mid waypoint at the first-half waypoint (index 1, time `0.25d`) and stay at
the end position afterwards, while the remaining legs hold the start position
through the first half and pass through the mid waypoint at index 3
(time `0.75d`). -/
theorem planStandUpTraj_waypoints (baseFrame : Fin 6 → Mat4)
    (ik : Fin 6 → V3 → V3) (legJointAngles : Fin 6 → V3) (d : ℝ) :
    ∀ i : Fin 6,
      (planStandUpTraj baseFrame ik legJointAngles d i).times =
        ![0, d * 0.25, d * 0.5, d * 0.75, d] ∧
      (planStandUpTraj baseFrame ik legJointAngles d i).positions 0 =
        legJointAngles i ∧
      (planStandUpTraj baseFrame ik legJointAngles d i).positions 4 =
        ik i (homeStanceXYZ baseFrame i) ∧
      (step_first i = true ↔ (i = 0 ∨ i = 3 ∨ i = 4)) ∧
      (step_first i = true →
        (planStandUpTraj baseFrame ik legJointAngles d i).positions 1 =
          standUpLegMid (ik i (homeStanceXYZ baseFrame i)) ∧
        (planStandUpTraj baseFrame ik legJointAngles d i).positions 2 =
          ik i (homeStanceXYZ baseFrame i) ∧
        (planStandUpTraj baseFrame ik legJointAngles d i).positions 3 =
          ik i (homeStanceXYZ baseFrame i)) ∧
      (step_first i = false →
        (planStandUpTraj baseFrame ik legJointAngles d i).positions 1 =
          legJointAngles i ∧
        (planStandUpTraj baseFrame ik legJointAngles d i).positions 2 =
          legJointAngles i ∧
        (planStandUpTraj baseFrame ik legJointAngles d i).positions 3 =
          standUpLegMid (ik i (homeStanceXYZ baseFrame i))) := by
  intro i
  refine ⟨?_, rfl, rfl, ?_, ?_, ?_⟩
  · funext r
    fin_cases r <;> simp [planStandUpTraj]
  · simp [step_first, Bool.or_eq_true, beq_iff_eq]
    tauto
  · intro h
    refine ⟨?_, ?_, ?_⟩ <;> simp [planStandUpTraj, h]
  · intro h
    refine ⟨?_, ?_, ?_⟩ <;> simp [planStandUpTraj, h]

/-- Witness for C8: leg 0 (a stagger leg) and leg 1 (a non-stagger leg) with
identity base frames, zero joint feedback, a constant-zero IK and `d = 1`. -/
theorem planStandUpTraj_waypoints_witness :
    (planStandUpTraj (fun _ => 1) (fun _ _ => 0) (fun _ => 0) 1 0).positions 1 =
      standUpLegMid 0 ∧
    (planStandUpTraj (fun _ => 1) (fun _ _ => 0) (fun _ => 0) 1 1).positions 1 = 0 := by
  have h := planStandUpTraj_waypoints (fun _ => 1) (fun _ _ => 0) (fun _ => 0) 1
  exact ⟨((h 0).2.2.2.2.1 rfl).1, ((h 1).2.2.2.2.2 rfl).1⟩

end PlanStandUpTheorems

namespace QuadModel

/-! ## `Quadruped::spreadAllLegs` (quadruped.cpp lines 317-349) -/

/-- The loop index sequence `for (int i = 0; i < num_legs_; ++i)`. -/
def legIndexList : List (Fin 6) := [0, 1, 2, 3, 4, 5]

/-- The hard-coded spread offset `tmp4(0.55, 0, 0.05, 0)`. -/
noncomputable def tmp4_spread : Fin 4 → ℝ := ![0.55, 0, 0.05, 0]

/-- A leg's spread target `(base_frame * tmp4).topLeftCorner<3,1>()`. -/
noncomputable def spreadStanceXYZ (baseFrame : Fin 6 → Mat4) (i : Fin 6) : V3 :=
  fun r => (baseFrame i).mulVec tmp4_spread r.castSucc

/-- The value held by the single shared variable `goal` after the command
loop of `spreadAllLegs`: every iteration overwrites it with that leg's IK
solution, so the final value is leg 5's. -/
noncomputable def spreadGoalAfterLoop (baseFrame : Fin 6 → Mat4)
    (ik : Fin 6 → V3 → V3) (goal0 : V3) : V3 :=
  legIndexList.foldl (fun _goal i => ik i (spreadStanceXYZ baseFrame i)) goal0

/-- The returned `isReaching` flag of `spreadAllLegs`: starting from `true`,
the check loop clears it whenever `(goal - curr_angle).norm() > 0.5`, where
`goal` is the value left by the command loop. -/
def spreadAllLegsIsReaching (baseFrame : Fin 6 → Mat4)
    (ik : Fin 6 → V3 → V3) (currAngles : Fin 6 → V3) (goal0 : V3) : Prop :=
  legIndexList.foldl
    (fun isReaching i =>
      isReaching ∧
        ¬(norm3 (spreadGoalAfterLoop baseFrame ik goal0 - currAngles i) > 0.5))
    True

end QuadModel

section SpreadTheorems

open QuadModel

/-- Claim C9: `spreadAllLegs` reports "reached" exactly when, for every leg
`i`, the norm of the difference between the IK goal computed for the last leg
(index 5) and leg `i`'s current joint angles is at most `0.5`: the shared
`goal` variable ends the command loop holding leg 5's IK solution, and the
reached check compares every leg against that single value. -/
theorem spreadAllLegs_reached_iff (baseFrame : Fin 6 → Mat4)
    (ik : Fin 6 → V3 → V3) (currAngles : Fin 6 → V3) (goal0 : V3) :
    spreadGoalAfterLoop baseFrame ik goal0 = ik 5 (spreadStanceXYZ baseFrame 5) ∧
    (spreadAllLegsIsReaching baseFrame ik currAngles goal0 ↔
      ∀ i : Fin 6,
        norm3 (ik 5 (spreadStanceXYZ baseFrame 5) - currAngles i) ≤ 0.5) := by
  have hgoal : spreadGoalAfterLoop baseFrame ik goal0 =
      ik 5 (spreadStanceXYZ baseFrame 5) := rfl
  refine ⟨hgoal, ?_⟩
  have hP : ∀ i : Fin 6,
      (¬(norm3 (spreadGoalAfterLoop baseFrame ik goal0 - currAngles i) > 0.5)) ↔
      norm3 (ik 5 (spreadStanceXYZ baseFrame 5) - currAngles i) ≤ 0.5 := by
    intro i
    rw [hgoal, not_lt]
  have hunfold : spreadAllLegsIsReaching baseFrame ik currAngles goal0 =
      ((((((True ∧
        ¬(norm3 (spreadGoalAfterLoop baseFrame ik goal0 - currAngles 0) > 0.5)) ∧
        ¬(norm3 (spreadGoalAfterLoop baseFrame ik goal0 - currAngles 1) > 0.5)) ∧
        ¬(norm3 (spreadGoalAfterLoop baseFrame ik goal0 - currAngles 2) > 0.5)) ∧
        ¬(norm3 (spreadGoalAfterLoop baseFrame ik goal0 - currAngles 3) > 0.5)) ∧
        ¬(norm3 (spreadGoalAfterLoop baseFrame ik goal0 - currAngles 4) > 0.5)) ∧
        ¬(norm3 (spreadGoalAfterLoop baseFrame ik goal0 - currAngles 5) > 0.5)) :=
    rfl
  rw [hunfold]
  constructor
  · rintro ⟨⟨⟨⟨⟨⟨-, h0⟩, h1⟩, h2⟩, h3⟩, h4⟩, h5⟩ i
    fin_cases i
    · exact (hP 0).mp h0
    · exact (hP 1).mp h1
    · exact (hP 2).mp h2
    · exact (hP 3).mp h3
    · exact (hP 4).mp h4
    · exact (hP 5).mp h5
  · intro h
    exact ⟨⟨⟨⟨⟨⟨trivial, (hP 0).mpr (h 0)⟩, (hP 1).mpr (h 1)⟩, (hP 2).mpr (h 2)⟩,
      (hP 3).mpr (h 3)⟩, (hP 4).mpr (h 4)⟩, (hP 5).mpr (h 5)⟩

end SpreadTheorems
